import Mathlib

/-!
Shallow embedding of the request router and user-scoping contract of
`financial_chatbot.py` (FastAPI financial chatbot backend).

Strings are modelled as `List Char`.  The regex `^\s*DB:` (with IGNORECASE)
is modelled by `dbPrefixRest`, Python's `str.strip()` by `strip`.  The
whitespace class is modelled by its ASCII fragment; the same character set
is used for both the regex match and the trimming, as in the source.

The external capabilities (SQL agent executor, general language model) are
parameters of `handle_chat`.  The SQL agent returns `Except Unit (Option
(List Char))`: `Except.error` models a raised exception, `Except.ok none`
models a result dictionary without an `output` key (so `response.get` takes
its default), `Except.ok (some t)` a result with output text `t`.  The
general model returns `Except Unit (List Char)`: its extracted text, or an
exception.  `handle_chat` additionally records the list of agent calls it
performed, so that routing-exclusivity properties can be stated.
-/

/-- ASCII whitespace, the fragment of the regex class `\s` and of the
characters removed by `str.strip()` that the embedding models. -/
def isSpace (c : Char) : Bool :=
  c == ' ' || c == '\t' || c == '\n' || c == '\x0d' || c == '\x0b' || c == '\x0c'

/-- Python `str.strip()` limited to the left end (`lstrip`). -/
def stripLeading (l : List Char) : List Char :=
  l.dropWhile isSpace

/-- Python `str.strip()` limited to the right end (`rstrip`). -/
def stripTrailing (l : List Char) : List Char :=
  (l.reverse.dropWhile isSpace).reverse

/-- Python `str.strip()`: whitespace removed from both ends. -/
def strip (l : List Char) : List Char :=
  stripTrailing (stripLeading l)

/-- The anchored regex `^\s*DB:` with `re.IGNORECASE`: greedily consume
leading whitespace, then require the literal `DB:` case-insensitively.
Returns `some rest` (the text after the matched prefix, which is what
`re.sub` leaves behind) on a match at the start, `none` otherwise. -/
def dbPrefixRest (q : List Char) : Option (List Char) :=
  match q.dropWhile isSpace with
  | c1 :: c2 :: c3 :: rest =>
      if (c1 == 'D' || c1 == 'd') && (c2 == 'B' || c2 == 'b') && c3 == ':' then
        some rest
      else
        none
  | _ => none

/-- The routing decision of the manual routing logic in `handle_chat`. -/
inductive RoutingDecision : Type
  | General : RoutingDecision
  | DatabaseScoped : List Char → RoutingDecision
deriving DecidableEq

/-- The classifier: lines 211 and 214 of the source.  A query matching
`^\s*DB:` is database-scoped, carrying
`re.sub(r"^\s*DB:", "", query).strip()`; anything else is general. -/
def classify (q : List Char) : RoutingDecision :=
  match dbPrefixRest q with
  | some rest => RoutingDecision.DatabaseScoped (strip rest)
  | none => RoutingDecision.General

/-- The guidance string returned for an empty database-scoped query. -/
def guidanceMsg : List Char :=
  "Please provide a specific question about your data after 'DB:'.".toList

/-- The default of `response.get('output', ...)` on the scoped path. -/
def scopedFallback : List Char :=
  "Sorry, I couldn't retrieve or process the database information.".toList

/-- The augmented agent input `f"UserID {TEST_USER_ID}: {db_query}"`. -/
def buildPayload (u q : List Char) : List Char :=
  "UserID ".toList ++ u ++ ": ".toList ++ q

/-- The identity marker that starts every scoped payload: everything of the
payload up to and including the colon-space delimiter after the identity. -/
def userIdMarker (u : List Char) : List Char :=
  "UserID ".toList ++ u ++ ": ".toList

/-- The templated prompt sent to the general language model. -/
def generalPromptOf (q : List Char) : List Char :=
  "Answer the following financial question concisely, providing a helpful summary within a maximum of 4 lines:\n\nQuestion: ".toList
    ++ q ++ "\n\nAnswer:".toList

/-- One external agent invocation performed while handling a request. -/
inductive AgentCall : Type
  | scoped : List Char → AgentCall
  | general : List Char → AgentCall
deriving DecidableEq

/-- The visible result of one request: a normal response body, or an HTTP
error status (503 service unavailable, 500 internal error). -/
inductive HandleResult : Type
  | ok : List Char → HandleResult
  | httpError : Nat → HandleResult
deriving DecidableEq

/-- Result of `handle_chat` together with the agent calls it performed. -/
structure HandleOutcome : Type where
  result : HandleResult
  calls : List AgentCall
deriving DecidableEq

/-- The `/chat` handler (`handle_chat`, lines 187-247 of the source):
readiness check, manual routing on the `DB:` prefix, empty-query guidance,
payload augmentation with the resolved identity, agent invocation, and
exception mapping to HTTP 500. -/
def handle_chat (ready : Bool) (userId : List Char)
    (scopedAgent : List Char → Except Unit (Option (List Char)))
    (generalAgent : List Char → Except Unit (List Char))
    (query : List Char) : HandleOutcome :=
  if ready = false then
    ⟨HandleResult.httpError 503, []⟩
  else
    match dbPrefixRest query with
    | some rest =>
        let dbQuery := strip rest
        if dbQuery = [] then
          ⟨HandleResult.ok guidanceMsg, []⟩
        else
          let payload := buildPayload userId dbQuery
          match scopedAgent payload with
          | Except.error _ =>
              ⟨HandleResult.httpError 500, [AgentCall.scoped payload]⟩
          | Except.ok r =>
              ⟨HandleResult.ok (r.getD scopedFallback), [AgentCall.scoped payload]⟩
    | none =>
        let prompt := generalPromptOf query
        match generalAgent prompt with
        | Except.error _ =>
            ⟨HandleResult.httpError 500, [AgentCall.general prompt]⟩
        | Except.ok t =>
            ⟨HandleResult.ok t, [AgentCall.general prompt]⟩

/-- The payloads of the scoped (SQL-agent) calls of an outcome. -/
def scopedPayloads (o : HandleOutcome) : List (List Char) :=
  o.calls.filterMap fun c =>
    match c with
    | AgentCall.scoped p => some p
    | AgentCall.general _ => none

/-- The four process-wide capability handles set by the startup block. -/
structure Components : Type where
  llm : Option Unit
  db : Option Unit
  toolkit : Option Unit
  agent_executor : Option Unit
deriving DecidableEq

/-- The per-request readiness check of `handle_chat`:
`if not agent_executor or not llm` raises 503, so the request proceeds
exactly when both handles are present. -/
def componentsReady (c : Components) : Bool :=
  c.agent_executor.isSome && c.llm.isSome

/-- The startup try/except block (lines 78-157): the four handles are
initialized in order inside one `try`; on any failure the `except` block
sets all of them to `None`. -/
def initComponents (initLlm initDb initToolkit initAgent : Except Unit Unit) :
    Components :=
  match initLlm with
  | Except.error _ => ⟨none, none, none, none⟩
  | Except.ok _ =>
    match initDb with
    | Except.error _ => ⟨none, none, none, none⟩
    | Except.ok _ =>
      match initToolkit with
      | Except.error _ => ⟨none, none, none, none⟩
      | Except.ok _ =>
        match initAgent with
        | Except.error _ => ⟨none, none, none, none⟩
        | Except.ok _ => ⟨some (), some (), some (), some ()⟩

/-- Split a character list at the first occurrence of the two-character
delimiter colon-space, returning the parts before and after it. -/
def splitAtColonSpace : List Char → Option (List Char × List Char)
  | [] => none
  | [_] => none
  | c1 :: c2 :: rest =>
      if c1 = ':' ∧ c2 = ' ' then
        some ([], rest)
      else
        (splitAtColonSpace (c2 :: rest)).map fun p => (c1 :: p.1, p.2)

/-- Whether a character list contains the delimiter colon-space. -/
def containsColonSpace : List Char → Bool
  | [] => false
  | [_] => false
  | c1 :: c2 :: rest =>
      (c1 == ':' && c2 == ' ') || containsColonSpace (c2 :: rest)

/-- The extraction the downstream agent is instructed to perform on the
payload: the token between the fixed `UserID ` prefix and the first
following colon-space. -/
def extractIdentity : List Char → Option (List Char)
  | 'U' :: 's' :: 'e' :: 'r' :: 'I' :: 'D' :: ' ' :: rest =>
      (splitAtColonSpace rest).map fun p => p.1
  | _ => none

/-- The classification condition in the spec's words: after stripping
leading whitespace, the query starts with the literal `DB:`
case-insensitively. -/
def specStartsWithDB (q : List Char) : Prop :=
  ∃ a b rest, q.dropWhile isSpace = a :: b :: ':' :: rest ∧
    (a = 'D' ∨ a = 'd') ∧ (b = 'B' ∨ b = 'b')

/-- The carried remainder in the spec's words: the query with the matched
prefix removed and surrounding whitespace stripped. -/
def specRemainder (q : List Char) : List Char :=
  strip ((q.dropWhile isSpace).drop 3)

/-- Branch equation: a non-ready service answers 503 with no agent call. -/
theorem handle_chat_unready (u : List Char)
    (sc : List Char → Except Unit (Option (List Char)))
    (ga : List Char → Except Unit (List Char)) (q : List Char) :
    handle_chat false u sc ga q = ⟨HandleResult.httpError 503, []⟩ := rfl

/-- Branch equation: an unmatched query goes to the general model. -/
theorem handle_chat_general_eq (u : List Char)
    (sc : List Char → Except Unit (Option (List Char)))
    (ga : List Char → Except Unit (List Char)) (q : List Char)
    (h : dbPrefixRest q = none) :
    handle_chat true u sc ga q =
      match ga (generalPromptOf q) with
      | Except.error _ =>
          ⟨HandleResult.httpError 500, [AgentCall.general (generalPromptOf q)]⟩
      | Except.ok t =>
          ⟨HandleResult.ok t, [AgentCall.general (generalPromptOf q)]⟩ := by
  unfold handle_chat
  rw [h]
  rfl

/-- Branch equation: a matched query whose remainder strips to empty gets
the guidance string and no agent call. -/
theorem handle_chat_empty_eq (u : List Char)
    (sc : List Char → Except Unit (Option (List Char)))
    (ga : List Char → Except Unit (List Char)) (q rest : List Char)
    (h : dbPrefixRest q = some rest) (he : strip rest = []) :
    handle_chat true u sc ga q = ⟨HandleResult.ok guidanceMsg, []⟩ := by
  unfold handle_chat
  rw [h]
  simp [he]

/-- Branch equation: a matched query with non-empty remainder goes to the
SQL agent with the augmented payload. -/
theorem handle_chat_scoped_eq (u : List Char)
    (sc : List Char → Except Unit (Option (List Char)))
    (ga : List Char → Except Unit (List Char)) (q rest : List Char)
    (h : dbPrefixRest q = some rest) (hne : ¬ strip rest = []) :
    handle_chat true u sc ga q =
      match sc (buildPayload u (strip rest)) with
      | Except.error _ =>
          ⟨HandleResult.httpError 500, [AgentCall.scoped (buildPayload u (strip rest))]⟩
      | Except.ok r =>
          ⟨HandleResult.ok (r.getD scopedFallback),
            [AgentCall.scoped (buildPayload u (strip rest))]⟩ := by
  unfold handle_chat
  rw [h]
  simp [hne]

/-- Any payload of a scoped call of `handle_chat` comes from a matched
query with a non-empty stripped remainder, and is the augmented input. -/
theorem mem_scopedPayloads_handle (u : List Char)
    (sc : List Char → Except Unit (Option (List Char)))
    (ga : List Char → Except Unit (List Char)) (q p : List Char)
    (hp : p ∈ scopedPayloads (handle_chat true u sc ga q)) :
    ∃ rest, dbPrefixRest q = some rest ∧ ¬ strip rest = [] ∧
      p = buildPayload u (strip rest) := by
  cases hd : dbPrefixRest q with
  | none =>
    rw [handle_chat_general_eq u sc ga q hd] at hp
    cases hga : ga (generalPromptOf q) <;> rw [hga] at hp <;>
      simp [scopedPayloads] at hp
  | some rest =>
    by_cases he : strip rest = []
    · rw [handle_chat_empty_eq u sc ga q rest hd he] at hp
      simp [scopedPayloads] at hp
    · rw [handle_chat_scoped_eq u sc ga q rest hd he] at hp
      refine ⟨rest, rfl, he, ?_⟩
      cases hsc : sc (buildPayload u (strip rest)) <;> rw [hsc] at hp <;>
        simp [scopedPayloads] at hp <;> exact hp

/-- If the spec's condition holds, the regex matches and leaves exactly the
text after the three prefix characters. -/
theorem dbPrefixRest_of_spec (q : List Char) (h : specStartsWithDB q) :
    dbPrefixRest q = some ((q.dropWhile isSpace).drop 3) := by
  obtain ⟨a, b, rest, hd, ha, hb⟩ := h
  unfold dbPrefixRest
  rw [hd]
  rcases ha with rfl | rfl <;> rcases hb with rfl | rfl <;> simp

/-- If the spec's condition fails, the regex does not match. -/
theorem dbPrefixRest_of_not_spec (q : List Char) (h : ¬ specStartsWithDB q) :
    dbPrefixRest q = none := by
  unfold dbPrefixRest
  cases hd : q.dropWhile isSpace with
  | nil => rfl
  | cons c1 t1 =>
    cases t1 with
    | nil => rfl
    | cons c2 t2 =>
      cases t2 with
      | nil => rfl
      | cons c3 rest =>
        show (if ((c1 == 'D' || c1 == 'd') && (c2 == 'B' || c2 == 'b') && c3 == ':') = true
            then some rest else (none : Option (List Char))) = none
        rw [if_neg]
        intro hcond
        apply h
        simp only [Bool.and_eq_true, Bool.or_eq_true, beq_iff_eq] at hcond
        obtain ⟨⟨ha, hb⟩, hc⟩ := hcond
        exact ⟨c1, c2, rest, by rw [hd, hc], ha, hb⟩

/-- A non-empty result of dropping leading whitespace starts with a
non-whitespace character. -/
theorem dropWhile_isSpace_head (q : List Char) (c : Char) (t : List Char)
    (h : q.dropWhile isSpace = c :: t) : isSpace c = false := by
  induction q with
  | nil => cases h
  | cons a q' ih =>
    by_cases ha : isSpace a = true
    · rw [List.dropWhile_cons_of_pos ha] at h
      exact ih h
    · rw [List.dropWhile_cons_of_neg ha] at h
      cases h
      exact Bool.eq_false_iff.mpr ha

/-- A query that strips to empty is all whitespace, so it has no leading
non-whitespace character at all. -/
theorem dropWhile_of_strip_nil (q : List Char) (h : strip q = []) :
    q.dropWhile isSpace = [] := by
  cases hd : q.dropWhile isSpace with
  | nil => rfl
  | cons c t =>
    exfalso
    have hc : isSpace c = false := dropWhile_isSpace_head q c t hd
    unfold strip stripTrailing stripLeading at h
    rw [hd] at h
    have hnil : (c :: t).reverse.dropWhile isSpace = [] := by
      cases hrev : (c :: t).reverse.dropWhile isSpace with
      | nil => rfl
      | cons x xs => rw [hrev] at h; simp at h
    rw [List.dropWhile_eq_nil_iff] at hnil
    have := hnil c (by simp)
    rw [hc] at this
    cases this

/-- A query that strips to empty never matches the routing regex. -/
theorem dbPrefixRest_of_strip_nil (q : List Char) (h : strip q = []) :
    dbPrefixRest q = none := by
  unfold dbPrefixRest
  rw [dropWhile_of_strip_nil q h]

/-- Splitting at the first colon-space after a delimiter-free part
recovers exactly the two parts. -/
theorem splitAtColonSpace_append (u r : List Char)
    (h : containsColonSpace u = false) :
    splitAtColonSpace (u ++ ':' :: ' ' :: r) = some (u, r) := by
  induction u with
  | nil => simp [splitAtColonSpace]
  | cons c1 u' ih =>
    cases u' with
    | nil => simp [splitAtColonSpace]
    | cons c2 u'' =>
      simp only [containsColonSpace, Bool.or_eq_false_iff, Bool.and_eq_false_iff] at h
      have hcond : ¬ (c1 = ':' ∧ c2 = ' ') := by
        intro hp
        rcases h.1 with hx | hx
        · rw [hp.1] at hx; simp at hx
        · rw [hp.2] at hx; simp at hx
      have ih' := ih h.2
      simp only [List.cons_append] at ih' ⊢
      rw [splitAtColonSpace, if_neg hcond]
      rw [ih']
      rfl

example : classify "  db: show my expenses".toList
    = RoutingDecision.DatabaseScoped "show my expenses".toList := by decide

example : classify "What is DB: a mistake?".toList = RoutingDecision.General := by
  decide

example : classify "DB:".toList = RoutingDecision.DatabaseScoped [] := by decide

example : extractIdentity (buildPayload "abc-123".toList "what: is this".toList)
    = some "abc-123".toList := by decide

example : extractIdentity (buildPayload "a: b".toList "z".toList)
    = some "a".toList := by decide

/-- C1: on the database-scoped path the identity embedded in the payload is
exactly the resolved identity; two requests with different query texts
produce payloads with the identical identity marker, which is built from
the resolved identity alone and from no value parsed out of the free-text
portion of the query. -/
theorem c1_identity_fixed_and_query_independent (u : List Char)
    (sc1 sc2 : List Char → Except Unit (Option (List Char)))
    (ga1 ga2 : List Char → Except Unit (List Char)) (q1 q2 p1 p2 : List Char)
    (h1 : p1 ∈ scopedPayloads (handle_chat true u sc1 ga1 q1))
    (h2 : p2 ∈ scopedPayloads (handle_chat true u sc2 ga2 q2)) :
    (∃ r1, p1 = userIdMarker u ++ r1) ∧ (∃ r2, p2 = userIdMarker u ++ r2) ∧
      p1.take (userIdMarker u).length = userIdMarker u ∧
      p1.take (userIdMarker u).length = p2.take (userIdMarker u).length := by
  obtain ⟨rest1, _, _, hp1⟩ := mem_scopedPayloads_handle u sc1 ga1 q1 p1 h1
  obtain ⟨rest2, _, _, hp2⟩ := mem_scopedPayloads_handle u sc2 ga2 q2 p2 h2
  have e1 : p1 = userIdMarker u ++ strip rest1 := by
    rw [hp1]; simp [buildPayload, userIdMarker]
  have e2 : p2 = userIdMarker u ++ strip rest2 := by
    rw [hp2]; simp [buildPayload, userIdMarker]
  have t1 : p1.take (userIdMarker u).length = userIdMarker u := by
    rw [e1]; exact List.take_left _ _
  have t2 : p2.take (userIdMarker u).length = userIdMarker u := by
    rw [e2]; exact List.take_left _ _
  exact ⟨⟨strip rest1, e1⟩, ⟨strip rest2, e2⟩, t1, t1.trans t2.symm⟩

/-- C1 witness: two scoped requests with different query texts after the
DB: prefix carry the same identity marker in their payloads. -/
theorem c1_witness :
    (buildPayload "user-1".toList "a".toList).take
        (userIdMarker "user-1".toList).length
      = (buildPayload "user-1".toList "b c".toList).take
        (userIdMarker "user-1".toList).length :=
  (c1_identity_fixed_and_query_independent "user-1".toList
    (fun _ => Except.ok (some [])) (fun _ => Except.ok (some []))
    (fun _ => Except.ok []) (fun _ => Except.ok [])
    "DB: a".toList " db:  b c".toList
    (buildPayload "user-1".toList "a".toList)
    (buildPayload "user-1".toList "b c".toList)
    (by decide) (by decide)).2.2.2

/-- C2: the routing decision is DatabaseScoped exactly when the query,
after stripping leading whitespace, starts with DB: case-insensitively;
a db: occurring anywhere else yields General; and the carried remainder
is the query with the prefix and surrounding whitespace stripped. -/
theorem c2_classify_matches_spec (q : List Char) :
    ((∃ r, classify q = RoutingDecision.DatabaseScoped r) ↔ specStartsWithDB q) ∧
    (specStartsWithDB q →
      classify q = RoutingDecision.DatabaseScoped (specRemainder q)) ∧
    (¬ specStartsWithDB q → classify q = RoutingDecision.General) := by
  have hpos : specStartsWithDB q →
      classify q = RoutingDecision.DatabaseScoped (specRemainder q) := by
    intro h
    unfold classify
    rw [dbPrefixRest_of_spec q h]
    rfl
  have hneg : ¬ specStartsWithDB q → classify q = RoutingDecision.General := by
    intro h
    unfold classify
    rw [dbPrefixRest_of_not_spec q h]
  refine ⟨⟨?_, fun h => ⟨specRemainder q, hpos h⟩⟩, hpos, hneg⟩
  intro hr
  obtain ⟨r, hr⟩ := hr
  by_contra hn
  rw [hneg hn] at hr
  cases hr

/-- C2 witness: the spec's worked example, with leading whitespace and a
lower-case prefix. -/
theorem c2_witness :
    classify "  db: show my expenses".toList
      = RoutingDecision.DatabaseScoped "show my expenses".toList := by
  have h := (c2_classify_matches_spec ("  db: show my expenses".toList)).2.1
    ⟨'d', 'b', " show my expenses".toList, by decide, Or.inr rfl, Or.inr rfl⟩
  exact h.trans (by decide)

/-- C3: a query matching the DB: prefix whose remainder is empty after
stripping gets the fixed guidance string as a normal response, and no
agent is invoked for that request. -/
theorem c3_empty_db_query_guidance (u : List Char)
    (sc : List Char → Except Unit (Option (List Char)))
    (ga : List Char → Except Unit (List Char)) (q rest : List Char)
    (h : dbPrefixRest q = some rest) (he : strip rest = []) :
    handle_chat true u sc ga q = ⟨HandleResult.ok guidanceMsg, []⟩ :=
  handle_chat_empty_eq u sc ga q rest h he

/-- C3 witness: a DB: query with only trailing whitespace. -/
theorem c3_witness :
    handle_chat true "user-1".toList (fun _ => Except.ok (some "x".toList))
      (fun _ => Except.ok "y".toList) "DB:  ".toList
      = ⟨HandleResult.ok guidanceMsg, []⟩ :=
  c3_empty_db_query_guidance "user-1".toList
    (fun _ => Except.ok (some "x".toList)) (fun _ => Except.ok "y".toList)
    "DB:  ".toList "  ".toList (by decide) (by decide)

/-- C4: the instruction payload handed to the SQL agent is exactly the
concatenation UserID + space + identity + colon + space + stripped query,
with nothing added, changed or reordered. -/
theorem c4_payload_exact (u : List Char)
    (sc : List Char → Except Unit (Option (List Char)))
    (ga : List Char → Except Unit (List Char)) (q rest : List Char)
    (h : dbPrefixRest q = some rest) (hne : ¬ strip rest = []) :
    scopedPayloads (handle_chat true u sc ga q)
      = ["UserID ".toList ++ u ++ ": ".toList ++ strip rest] := by
  rw [handle_chat_scoped_eq u sc ga q rest h hne]
  cases hsc : sc (buildPayload u (strip rest)) <;>
    simp [scopedPayloads, buildPayload]

/-- C4 witness: the payload for a concrete scoped request. -/
theorem c4_witness :
    scopedPayloads (handle_chat true "user-1".toList
        (fun _ => Except.ok (some "ok".toList)) (fun _ => Except.ok "g".toList)
        "DB: total spent".toList)
      = ["UserID ".toList ++ "user-1".toList ++ ": ".toList
          ++ strip " total spent".toList] :=
  c4_payload_exact "user-1".toList
    (fun _ => Except.ok (some "ok".toList)) (fun _ => Except.ok "g".toList)
    "DB: total spent".toList " total spent".toList (by decide) (by decide)

/-- C5: each request performs at most one agent call, the SQL agent is
only called when the decision is DatabaseScoped, and the general answerer
is only called when the decision is General. -/
theorem c5_mutually_exclusive_routing (ready : Bool) (u : List Char)
    (sc : List Char → Except Unit (Option (List Char)))
    (ga : List Char → Except Unit (List Char)) (q : List Char) :
    (handle_chat ready u sc ga q).calls.length ≤ 1 ∧
    (∀ p, AgentCall.scoped p ∈ (handle_chat ready u sc ga q).calls →
      ∃ r, classify q = RoutingDecision.DatabaseScoped r) ∧
    (∀ p, AgentCall.general p ∈ (handle_chat ready u sc ga q).calls →
      classify q = RoutingDecision.General) := by
  cases ready with
  | false =>
    rw [handle_chat_unready]
    simp
  | true =>
    cases hd : dbPrefixRest q with
    | none =>
      have hc : classify q = RoutingDecision.General := by
        unfold classify; rw [hd]
      rw [handle_chat_general_eq u sc ga q hd]
      cases hga : ga (generalPromptOf q) <;> simp [hc]
    | some rest =>
      have hc : classify q = RoutingDecision.DatabaseScoped (strip rest) := by
        unfold classify; rw [hd]
      by_cases he : strip rest = []
      · rw [handle_chat_empty_eq u sc ga q rest hd he]
        simp
      · rw [handle_chat_scoped_eq u sc ga q rest hd he]
        cases hsc : sc (buildPayload u (strip rest)) <;> simp [hc]

/-- C5 witness: a general query yields a General decision, derived from
the routing-exclusivity theorem applied to its recorded general call. -/
theorem c5_witness : classify "what is an ETF".toList = RoutingDecision.General :=
  (c5_mutually_exclusive_routing true "user-1".toList
    (fun _ => Except.ok (some [])) (fun _ => Except.ok "t".toList)
    "what is an ETF".toList).2.2
    (generalPromptOf "what is an ETF".toList) (by decide)

/-- C6: if any component initialization step failed at startup, the
readiness check fails and every request gets HTTP 503 with no agent call
attempted. -/
theorem c6_unready_503 (il idb itk iag : Except Unit Unit) (u : List Char)
    (sc : List Char → Except Unit (Option (List Char)))
    (ga : List Char → Except Unit (List Char)) (q : List Char)
    (h : il = Except.error () ∨ idb = Except.error () ∨ itk = Except.error ()
      ∨ iag = Except.error ()) :
    componentsReady (initComponents il idb itk iag) = false ∧
    handle_chat (componentsReady (initComponents il idb itk iag)) u sc ga q
      = ⟨HandleResult.httpError 503, []⟩ := by
  have hc : initComponents il idb itk iag = ⟨none, none, none, none⟩ := by
    rcases h with rfl | rfl | rfl | rfl
    · rfl
    · cases il <;> rfl
    · cases il <;> cases idb <;> rfl
    · cases il <;> cases idb <;> cases itk <;> rfl
  rw [hc]
  exact ⟨rfl, rfl⟩

/-- C6 witness: a failed language-model initialization yields 503 for a
concrete scoped query, with no agent call. -/
theorem c6_witness :
    componentsReady (initComponents (Except.error ()) (Except.ok ())
      (Except.ok ()) (Except.ok ())) = false ∧
    handle_chat (componentsReady (initComponents (Except.error ()) (Except.ok ())
        (Except.ok ()) (Except.ok ())))
      "user-1".toList (fun _ => Except.ok (some [])) (fun _ => Except.ok [])
      "DB: total".toList
      = ⟨HandleResult.httpError 503, []⟩ :=
  c6_unready_503 (Except.error ()) (Except.ok ()) (Except.ok ()) (Except.ok ())
    "user-1".toList (fun _ => Except.ok (some [])) (fun _ => Except.ok [])
    "DB: total".toList (Or.inl rfl)

/-- C7 counterexample: when the scoped agent completes successfully with an
output field that is present but empty, the response body is the empty
string, not a non-empty fallback, contradicting the claim. -/
theorem c7_counterexample :
    (handle_chat true "user-1".toList (fun _ => Except.ok (some []))
      (fun _ => Except.ok "g".toList) "DB: total spent".toList).result
      = HandleResult.ok [] := by decide

/-- C7 amended: the fallback only covers a successful scoped invocation
whose result carries no output field at all; then the response is the
fixed non-empty fallback string.  An output field that is present but
empty is returned as-is, so the response body can be empty. -/
theorem c7_missing_output_fallback (u : List Char)
    (sc : List Char → Except Unit (Option (List Char)))
    (ga : List Char → Except Unit (List Char)) (q rest : List Char)
    (h : dbPrefixRest q = some rest) (hne : ¬ strip rest = [])
    (hsc : sc (buildPayload u (strip rest)) = Except.ok none) :
    (handle_chat true u sc ga q).result = HandleResult.ok scopedFallback ∧
      ¬ scopedFallback = [] := by
  rw [handle_chat_scoped_eq u sc ga q rest h hne, hsc]
  exact ⟨rfl, by decide⟩

/-- C7 witness: a scoped result without an output field gets the fixed
non-empty fallback string. -/
theorem c7_witness :
    (handle_chat true "user-1".toList (fun _ => Except.ok none)
      (fun _ => Except.ok "g".toList) "DB: total spent".toList).result
      = HandleResult.ok scopedFallback ∧ ¬ scopedFallback = [] :=
  c7_missing_output_fallback "user-1".toList (fun _ => Except.ok none)
    (fun _ => Except.ok "g".toList) "DB: total spent".toList
    " total spent".toList (by decide) (by decide) rfl

/-- C8 counterexample: for an identity containing the colon-space
delimiter, parsing the payload by the fixed prefix format does not
recover the identity, contradicting the claim's quantification over every
identity. -/
theorem c8_counterexample :
    extractIdentity (buildPayload "a: b".toList "show my expenses".toList)
      ≠ some ("a: b".toList) := by decide

/-- C8 amended: for every identity that does not itself contain the
colon-space delimiter (any UUID in particular) and every free-text query,
the token between the UserID prefix and the first following colon-space
is exactly the identity, whatever delimiters the free text contains. -/
theorem c8_extract_roundtrip (u q : List Char)
    (h : containsColonSpace u = false) :
    extractIdentity (buildPayload u q) = some u := by
  have hb : buildPayload u q
      = 'U' :: 's' :: 'e' :: 'r' :: 'I' :: 'D' :: ' '
          :: (u ++ ':' :: ' ' :: q) := by
    show ((("UserID ".toList ++ u) ++ ": ".toList) ++ q) = _
    rw [List.append_assoc, List.append_assoc]
    rfl
  rw [hb]
  simp only [extractIdentity]
  rw [splitAtColonSpace_append u q h]
  rfl

/-- C8 witness: a delimiter-free identity is recovered exactly even when
the free text contains colon-space sequences. -/
theorem c8_witness :
    extractIdentity (buildPayload "3f2c-uuid-77".toList
      "sum: all category: totals".toList)
      = some ("3f2c-uuid-77".toList) :=
  c8_extract_roundtrip "3f2c-uuid-77".toList
    "sum: all category: totals".toList (by decide)

/-- C9 counterexample: a whitespace-only query (empty after trimming) is
not rejected by any validation; it is classified and routed to the
general answerer, contradicting the claim. -/
theorem c9_counterexample :
    strip "   ".toList = [] ∧
    (handle_chat true "user-1".toList (fun _ => Except.ok (some []))
      (fun _ => Except.ok "g".toList) "   ".toList).calls
      = [AgentCall.general (generalPromptOf "   ".toList)] :=
  ⟨by decide, by decide⟩

/-- C9 amended: there is no emptiness validation; a query that is empty
after trimming never matches the DB: prefix, so it is always classified
General, is never routed to the SQL agent, and on a ready service it is
routed to the general answerer. -/
theorem c9_empty_query_goes_general (ready : Bool) (u : List Char)
    (sc : List Char → Except Unit (Option (List Char)))
    (ga : List Char → Except Unit (List Char)) (q : List Char)
    (h : strip q = []) :
    classify q = RoutingDecision.General ∧
    scopedPayloads (handle_chat ready u sc ga q) = [] ∧
    (ready = true →
      (handle_chat ready u sc ga q).calls
        = [AgentCall.general (generalPromptOf q)]) := by
  have hd : dbPrefixRest q = none := dbPrefixRest_of_strip_nil q h
  have hc : classify q = RoutingDecision.General := by
    unfold classify; rw [hd]
  cases ready with
  | false =>
    rw [handle_chat_unready]
    exact ⟨hc, rfl, fun hf => absurd hf Bool.false_ne_true⟩
  | true =>
    rw [handle_chat_general_eq u sc ga q hd]
    cases hga : ga (generalPromptOf q) <;> exact ⟨hc, rfl, fun _ => rfl⟩

/-- C9 witness: the empty query is classified General and reaches only
the general answerer. -/
theorem c9_witness :
    classify [] = RoutingDecision.General ∧
    scopedPayloads (handle_chat true "user-1".toList
      (fun _ => Except.ok (some [])) (fun _ => Except.ok "g".toList) []) = [] ∧
    (true = true →
      (handle_chat true "user-1".toList (fun _ => Except.ok (some []))
        (fun _ => Except.ok "g".toList) []).calls
        = [AgentCall.general (generalPromptOf [])]) :=
  c9_empty_query_goes_general true "user-1".toList
    (fun _ => Except.ok (some [])) (fun _ => Except.ok "g".toList) [] (by decide)

/-- C10: startup initialization is all-or-nothing - the four handles are
either all present or all absent - so the per-request readiness check on
the agent executor and the language model guarantees that every handle is
present whenever a request proceeds past it. -/
theorem c10_all_or_nothing (il idb itk iag : Except Unit Unit) :
    (initComponents il idb itk iag = ⟨none, none, none, none⟩ ∨
      initComponents il idb itk iag = ⟨some (), some (), some (), some ()⟩) ∧
    (componentsReady (initComponents il idb itk iag) = true →
      (initComponents il idb itk iag).llm.isSome = true ∧
      (initComponents il idb itk iag).db.isSome = true ∧
      (initComponents il idb itk iag).toolkit.isSome = true ∧
      (initComponents il idb itk iag).agent_executor.isSome = true) := by
  cases il <;> cases idb <;> cases itk <;> cases iag <;>
    simp [initComponents, componentsReady]

/-- C10 witness: with every initialization step succeeding, the readiness
check passes and all four handles are present. -/
theorem c10_witness :
    (initComponents (Except.ok ()) (Except.ok ()) (Except.ok ())
      (Except.ok ())).llm.isSome = true ∧
    (initComponents (Except.ok ()) (Except.ok ()) (Except.ok ())
      (Except.ok ())).db.isSome = true ∧
    (initComponents (Except.ok ()) (Except.ok ()) (Except.ok ())
      (Except.ok ())).toolkit.isSome = true ∧
    (initComponents (Except.ok ()) (Except.ok ()) (Except.ok ())
      (Except.ok ())).agent_executor.isSome = true :=
  (c10_all_or_nothing (Except.ok ()) (Except.ok ()) (Except.ok ())
    (Except.ok ())).2 (by decide)
